import Mathlib

/-!
Verification of the QuickDeck data system's sensor-acquisition core against
its specification.  The two firmware programs are embedded shallowly:

* `src/arduino/strain_arduino/strain_arduino.ino` — the strain node: eight
  HX711 channels, a 100 ms sampling scheduler, and the TARE / CALIBRATE /
  IDENTITY command dispatcher.
* `src/unnamed/part_000` (`motion_arduino.ino`) — the motion node: two real
  MPU6050 modules fused by a complementary filter, a synthesized third
  module, a 10 ms scheduler, and the boot-time calibration routine.

Machine floats are idealized as `ℚ` (strain path, exact field arithmetic
only) and `ℝ` (motion path, which needs `sqrt`/`atan2`).  The 16-bit `int`
arithmetic of the AVR target (Arduino Uno) is modelled exactly where it
matters, via two's-complement wrapping (`s16`).  Timestamps are `Nat`
milliseconds; the firmware's `unsigned long` subtraction is modelled with an
explicit `% 4294967296`.
-/

namespace QuickDeck

/-! ### Strain channel driver

Modelled from the spec: the HX711 channel driver is supplied by the external
"HX711" Arduino library, whose source is not part of this repository.
Spec §4.2 defines the operations: `read()` returns
`(rawCount − zeroOffset) / scale`; `tare()` captures the current raw reading
as the new zero offset; `setScale(factor)` stores the calibration factor;
the scale factor defaults to 1.0 when unset.  The raw count delivered by the
amplifier is passed in explicitly as `raw`.
-/

/-- One strain channel's calibration state: zero offset and scale factor
(spec §3, Channel).  Pins and gain do not affect any claim and are omitted. -/
structure Channel where
  offset : ℚ
  scale : ℚ
deriving DecidableEq

/-- Modelled from the spec: `read()` returns `(rawCount − zeroOffset) / scale`
(§4.2); `raw` is the current raw count from the amplifier. -/
def readChannel (c : Channel) (raw : ℚ) : ℚ :=
  (raw - c.offset) / c.scale

/-- Modelled from the spec: `tare()` captures the current raw reading as the
new zero offset (§4.2). -/
def tareChannel (c : Channel) (raw : ℚ) : Channel :=
  { c with offset := raw }

/-- Modelled from the spec: `setScale(factor)` stores the calibration factor
(§4.2).  (Non-finite floats do not exist in the `ℚ` idealization.) -/
def setScale (c : Channel) (factor : ℚ) : Channel :=
  { c with scale := factor }

/-- Channel state at boot: offset 0 and the default scale factor 1
(spec §3: "if unset, defaults to 1.0").  `setup()` additionally tares ready
channels, which only moves the offset; the scale stays 1. -/
def initStrain : Fin 8 → Channel := fun _ => ⟨0, 1⟩

/-! ### Arduino `String` parsing helpers

These model the Arduino `String` methods the strain sketch uses:
`startsWith`, `indexOf(char, fromIndex)`, `substring`, `toInt` (which calls
`atol`) and `toFloat` (which calls `atof`).  `atolModel`/`atofModel` parse
optional leading whitespace, an optional sign, a run of decimal digits and
(for `atof`) an optional fractional part, returning 0 when no digits are
present; exponent notation never occurs in the inputs considered here.
Commands are `List Char`, the line read by `Serial.readStringUntil` with the
newline terminator already stripped.
-/

/-- Arduino `String.startsWith pre`: `pre` is a prefix of the string. -/
def startsWithList : List Char → List Char → Bool
  | [], _ => true
  | _ :: _, [] => false
  | p :: ps, c :: cs => p == c && startsWithList ps cs

/-- Helper for `indexOfFrom`: scan with an absolute running index. -/
def indexOfFromAux : Char → List Char → Nat → Int
  | _, [], _ => -1
  | ch, c :: cs, idx => if c == ch then (idx : Int) else indexOfFromAux ch cs (idx + 1)

/-- Arduino `String.indexOf(ch, start)`: absolute index of the first
occurrence of `ch` at or after `start`, or `-1`. -/
def indexOfFrom (ch : Char) (s : List Char) (start : Nat) : Int :=
  indexOfFromAux ch (s.drop start) start

/-- Value of a string of decimal digits. -/
def natOfDigits (l : List Char) : Nat :=
  l.foldl (fun a c => 10 * a + (c.toNat - 48)) 0

/-- Model of `atol` as used by Arduino `String.toInt`: optional whitespace
and sign, then the leading run of digits; 0 when there are no digits. -/
def atolModel (s : List Char) : Int :=
  let s1 := s.dropWhile Char.isWhitespace
  match s1 with
  | '-' :: r => -(natOfDigits (r.takeWhile Char.isDigit) : Int)
  | '+' :: r => (natOfDigits (r.takeWhile Char.isDigit) : Int)
  | _ => (natOfDigits (s1.takeWhile Char.isDigit) : Int)

/-- Model of `atof` as used by Arduino `String.toFloat`: optional whitespace
and sign, integer digits, optional '.' and fraction digits; 0 when there are
no digits.  Exponents never occur in the inputs considered. -/
def atofModel (s : List Char) : ℚ :=
  let s1 := s.dropWhile Char.isWhitespace
  let sign : ℚ := match s1 with
    | '-' :: _ => -1
    | _ => 1
  let s2 : List Char := match s1 with
    | '-' :: r => r
    | '+' :: r => r
    | _ => s1
  let ip := s2.takeWhile Char.isDigit
  let r1 := s2.dropWhile Char.isDigit
  let frac : ℚ := match r1 with
    | '.' :: r2 => (natOfDigits (r2.takeWhile Char.isDigit) : ℚ) /
        (10 : ℚ) ^ (r2.takeWhile Char.isDigit).length
    | _ => 0
  sign * ((natOfDigits ip : ℚ) + frac)

/-! ### Strain command dispatcher

`processCommand` of `strain_arduino.ino` (lines 100–127).  The TARE branch
reads the hardware to capture new offsets, so the current raw counts are an
explicit argument.
-/

/-- Two's-complement wrap of a 16-bit signed `int`.  Both sketches run on an
Arduino Uno, whose `int` is 16 bits: the strain dispatcher assigns
`toInt()`'s 32-bit `long` into `int channel` (truncation mod 2¹⁶), and the
motion node's accelerometer products are computed in `int` arithmetic. -/
def s16 (v : Int) : Int := (v + 32768) % 65536 - 32768

/-- One outbound acknowledgement frame of the strain node. -/
inductive StrainFrame where
  | tareComplete
  | calibrationSet (channel : Int) (factor : ℚ)
  | ready
deriving DecidableEq

/-- The channel index parsed by the CALIBRATE branch:
`int channel = command.substring(10, commaIndex).toInt()` (line 111).
`toInt()` returns a 32-bit `long`; storing it in the 16-bit AVR `int`
truncates mod 2¹⁶ (`s16`).  Wrapping the exact decimal value agrees with
wrapping the 32-bit `atol` result, since 2¹⁶ divides 2³². -/
def parsedChannel (cmd : List Char) : Int :=
  s16 (atolModel (List.take ((indexOfFrom ',' cmd 10).toNat - 10) (List.drop 10 cmd)))

/-- The factor parsed by the CALIBRATE branch:
`command.substring(commaIndex + 1).toFloat()` (line 112). -/
def parsedFactor (cmd : List Char) : ℚ :=
  atofModel (List.drop ((indexOfFrom ',' cmd 10).toNat + 1) cmd)

/-- `processCommand` of the strain sketch (lines 100–127): TARE tares every
channel and acks `TARE_COMPLETE`; `CALIBRATE,<ch>,<f>` applies
`set_scale(factor)` to channel `ch` when `1 ≤ ch ≤ 8` and acks
`CALIBRATION_SET`; `IDENTITY` re-emits the ready banner; anything else is
ignored.  Returns the new channel states and the emitted frames. -/
def processCommand (st : Fin 8 → Channel) (raws : Fin 8 → ℚ) (cmd : List Char) :
    (Fin 8 → Channel) × List StrainFrame :=
  if startsWithList ("TARE".toList) cmd then
    (fun i => tareChannel (st i) (raws i), [StrainFrame.tareComplete])
  else if startsWithList ("CALIBRATE".toList) cmd then
    let commaIndex := indexOfFrom ',' cmd 10
    if 0 < commaIndex then
      let channel := parsedChannel cmd
      let factor := parsedFactor cmd
      if 1 ≤ channel ∧ channel ≤ 8 then
        (fun i => if (i : Nat) = (channel - 1).toNat then setScale (st i) factor else st i,
          [StrainFrame.calibrationSet channel factor])
      else (st, [])
    else (st, [])
  else if cmd == "IDENTITY".toList then (st, [StrainFrame.ready])
  else (st, [])

/-! ### Sampling scheduler

The guard shared by both loops (`strain_arduino.ino` lines 66–69,
`part_000` lines 77–81): fire when `currentTime - lastSampleTime >=
SAMPLE_INTERVAL` computed in `unsigned long` (32-bit) arithmetic, and on
fire set `lastSampleTime = currentTime`.  Times are `Nat` milliseconds since
boot; the machine subtraction is `(now - last) % 4294967296`, which for
`last ≤ now` agrees with the value the firmware computes.
-/

/-- `SAMPLE_INTERVAL` of the strain sketch: 100 ms (10 Hz). -/
def SAMPLE_INTERVAL_STRAIN : Nat := 100

/-- `SAMPLE_INTERVAL` of the motion sketch: 10 ms (100 Hz). -/
def SAMPLE_INTERVAL_MOTION : Nat := 10

/-- One scheduler check: new `lastSampleTime` and whether the tick fired. -/
def schedTick (interval last now : Nat) : Nat × Bool :=
  if interval ≤ (now - last) % 4294967296 then (now, true) else (last, false)

/-- Fire times produced by running the scheduler over a list of tick times;
each fire emits exactly one record, stamped with the firing `now`. -/
def schedFires (interval : Nat) : Nat → List Nat → List Nat
  | _, [] => []
  | last, now :: ts =>
    if interval ≤ (now - last) % 4294967296 then now :: schedFires interval now ts
    else schedFires interval last ts

/-! ### Strain sampling (loop body on fire)

`loop()` of `strain_arduino.ino` (lines 73–91): on a fired tick, each
channel is read if `is_ready()`, otherwise its slot gets the sentinel 0;
then exactly one `STRAIN` record with the fire timestamp and all eight
readings is written to serial.
-/

/-- The eight readings taken on one fired tick: `get_value()` for a ready
channel, sentinel 0 otherwise (lines 74–79). -/
def strainSample (st : Fin 8 → Channel) (ready : Fin 8 → Bool) (raw : Fin 8 → ℚ) :
    Fin 8 → ℚ :=
  fun i => if ready i then readChannel (st i) (raw i) else 0

/-- One `STRAIN` record: the fire timestamp and the eight readings. -/
structure StrainRecord where
  t : Nat
  readings : Fin 8 → ℚ
deriving DecidableEq

/-- The record emitted by one fired strain tick (lines 81–91); it is always
produced in full, never aborted. -/
def strainFireRecord (t : Nat) (st : Fin 8 → Channel) (ready : Fin 8 → Bool)
    (raw : Fin 8 → ℚ) : StrainRecord :=
  { t := t, readings := strainSample st ready raw }

/-! ### Motion node: 16-bit arithmetic and `atan2`

The motion sketch runs on an Arduino Uno, where `int` is 16 bits.  The
accelerometer terms `ax * ax + az * az` and `-ax` are therefore computed in
16-bit two's-complement arithmetic *before* being converted to floating
point for `sqrt`/`atan2`; `s16` (defined with the dispatcher above, which
shares it) performs that wrap.  (When the wrapped sum is negative, the C
`sqrt` yields NaN, which `ℝ` cannot represent — `Real.sqrt` gives 0 there;
no theorem below rests on such an input.)
-/

/-- The C `atan2(y, x)`, idealized over `ℝ`: the angle of the point
`(x, y)`, in `(-π, π]`, with `atan2 0 0 = 0`. -/
noncomputable def atan2 (y x : ℝ) : ℝ :=
  if 0 < x then Real.arctan (y / x)
  else if x = 0 ∧ 0 < y then Real.pi / 2
  else if x = 0 ∧ y < 0 then -(Real.pi / 2)
  else if x = 0 then 0
  else if 0 ≤ y then Real.arctan (y / x) + Real.pi
  else Real.arctan (y / x) - Real.pi

/-! ### Orientation estimator (complementary filter)

`loop()` of the motion sketch (`part_000` lines 84–108): per real module and
cycle, read six raw values with `getMotion6` — unconditionally, there is no
failure branch — and apply the complementary filter.
-/

/-- One module's orientation estimate: pitch, roll, yaw in degrees. -/
structure Orientation where
  pitch : ℝ
  roll : ℝ
  yaw : ℝ

/-- One `getMotion6` result: raw accelerometer and gyro components, each a
16-bit signed integer. -/
structure Raw6 where
  ax : Int
  ay : Int
  az : Int
  gx : Int
  gy : Int
  gz : Int

/-- `alpha = 0.98`, the complementary-filter coefficient (line 30). -/
noncomputable def alpha : ℝ := 0.98

/-- `dt = SAMPLE_INTERVAL / 1000.0` (line 99): 0.01 s. -/
noncomputable def dt : ℝ := (SAMPLE_INTERVAL_MOTION : ℝ) / 1000

/-- One fusion cycle for one real module (`part_000` lines 86–107), exactly
as executed on the Uno: `ax * ax`, `az * az`, their sum and `-ax` are 16-bit
`int` computations (wrapped by `s16`) and only then converted to floating
point; the gyro components are converted directly.  The filter is applied
unconditionally — the sketch never checks whether the bus transaction
succeeded. -/
noncomputable def motionModuleStep (prev : Orientation) (r : Raw6) : Orientation :=
  let accelPitch : ℝ :=
    atan2 (r.ay : ℝ) (Real.sqrt ((s16 (s16 (r.ax * r.ax) + s16 (r.az * r.az)) : ℝ))) *
      180 / Real.pi
  let accelRoll : ℝ := atan2 ((s16 (-r.ax) : ℝ)) ((r.az : ℝ)) * 180 / Real.pi
  let gyroX : ℝ := (r.gx : ℝ) / 131
  let gyroY : ℝ := (r.gy : ℝ) / 131
  let gyroZ : ℝ := (r.gz : ℝ) / 131
  let gyroPitch : ℝ := prev.pitch + gyroY * dt
  let gyroRoll : ℝ := prev.roll + gyroX * dt
  let gyroYaw : ℝ := prev.yaw + gyroZ * dt
  { pitch := alpha * gyroPitch + (1 - alpha) * accelPitch
    roll := alpha * gyroRoll + (1 - alpha) * accelRoll
    yaw := gyroYaw }

/-- The spec's accelerometer-pitch/fusion formula for the new pitch
(§4.4 steps 1–4 and claim C4), written from the spec's words for comparison
with the code: real-valued `ax² + az²` with no integer wrapping. -/
noncomputable def specPitchFormula (prevPitch : ℝ) (ax ay az gy : Int) : ℝ :=
  0.98 * (prevPitch + ((gy : ℝ) / 131) * dt) +
    (1 - 0.98) * (atan2 (ay : ℝ) (Real.sqrt ((ax : ℝ) ^ 2 + (az : ℝ) ^ 2)) * 180 / Real.pi)

/-- The spec's fusion formula for the new roll (§4.4), written from the
spec's words: `atan2(−ax, az)` with mathematical negation, no wrapping. -/
noncomputable def specRollFormula (prevRoll : ℝ) (ax az gx : Int) : ℝ :=
  0.98 * (prevRoll + ((gx : ℝ) / 131) * dt) +
    (1 - 0.98) * (atan2 (-(ax : ℝ)) ((az : ℝ)) * 180 / Real.pi)

/-! ### Motion node state: two real modules plus the synthesized third

`part_000` lines 110–118: `angle_offset` grows by 0.01 per fired cycle and
is reset to 0.0 once it exceeds 30.0; the third module mirrors the second
real module with the offset added to pitch.  The offset counter is exact in
the `ℚ` idealization.
-/

/-- The `angle_offset` update (lines 112–114): increment by 0.01, reset to 0
once the result exceeds 30. -/
def offsetStep (o : ℚ) : ℚ :=
  let o2 := o + 1 / 100
  if 30 < o2 then 0 else o2

/-- Motion node state: the three orientation slots and the static
`angle_offset` counter. -/
structure MotionState where
  m : Fin 3 → Orientation
  offset : ℚ

/-- One fired cycle of the motion loop (lines 84–118): both real modules are
fused from their raw readings, then the third module is synthesized from the
second real module and the updated offset counter. -/
noncomputable def motionFireStep (st : MotionState) (raw : Fin 2 → Raw6) : MotionState :=
  let m0 := motionModuleStep (st.m 0) (raw 0)
  let m1 := motionModuleStep (st.m 1) (raw 1)
  let o := offsetStep st.offset
  { m := fun i =>
      if i = 0 then m0
      else if i = 1 then m1
      else { pitch := m1.pitch + (o : ℝ), roll := m1.roll, yaw := m1.yaw }
    offset := o }

/-! ### Motion node boot trace

`setup()` of `part_000` (lines 33–74): the `MOTION_ARDUINO_READY` banner,
one init/error line per real module (the loop over `i < 2`, unrolled), then
`calibrateSensors()` (lines 143–153), which prints
`CALIBRATING_SENSORS,START`, runs the blocking bias calibration, and prints
`CALIBRATING_SENSORS,COMPLETE`.  Only afterwards does `loop()` run and emit
`MOTION` records.
-/

/-- One serial line emitted by the motion node. -/
inductive MotionMsg where
  | ready
  | sensorInit (n : Nat)
  | sensorError (n : Nat)
  | calibStart
  | calibComplete
  | record (t : Nat) (m : Fin 3 → Orientation)

/-- The per-sensor init line: `Sensor <n> initialized` when
`testConnection()` succeeded, else `ERROR: Sensor <n> not found!`. -/
def initMsg (connected : Bool) (n : Nat) : MotionMsg :=
  if connected then MotionMsg.sensorInit n else MotionMsg.sensorError n

/-- Whether a serial line is a `MOTION` data record. -/
def isMotionRecord : MotionMsg → Bool
  | MotionMsg.record _ _ => true
  | _ => false

/-- Everything `setup()` prints, in order (`conn i` = whether module `i`'s
`testConnection()` succeeded). -/
def setupMsgs (conn : Fin 2 → Bool) : List MotionMsg :=
  [MotionMsg.ready, initMsg (conn 0) 1, initMsg (conn 1) 2,
    MotionMsg.calibStart, MotionMsg.calibComplete]

/-- The records emitted by running the motion loop over a list of fired
cycles, each given by its fire time and the two modules' raw readings; every
fired cycle emits exactly one `MOTION` record of the new state. -/
noncomputable def runMotion (st : MotionState) : List (Nat × (Fin 2 → Raw6)) → List MotionMsg
  | [] => []
  | (t, raw) :: rest =>
    MotionMsg.record t (motionFireStep st raw).m :: runMotion (motionFireStep st raw) rest

/-- The full serial trace of one boot: the `setup()` lines followed by the
loop's records. -/
noncomputable def bootTrace (conn : Fin 2 → Bool) (st : MotionState)
    (fires : List (Nat × (Fin 2 → Raw6))) : List MotionMsg :=
  setupMsgs conn ++ runMotion st fires

/-! ## Helper lemmas -/

/-- `s16` is the identity on values that fit in a 16-bit `int`. -/
lemma s16_eq_self (v : Int) (h1 : -32768 ≤ v) (h2 : v ≤ 32767) : s16 v = v := by
  unfold s16
  omega

lemma atan2_of_pos (y x : ℝ) (hx : 0 < x) : atan2 y x = Real.arctan (y / x) := by
  unfold atan2
  rw [if_pos hx]

lemma atan2_pos_zero (y : ℝ) (hy : 0 < y) : atan2 y 0 = Real.pi / 2 := by
  unfold atan2
  rw [if_neg (lt_irrefl 0), if_pos ⟨rfl, hy⟩]

lemma atan2_zero_zero : atan2 0 0 = 0 := by
  unfold atan2
  rw [if_neg (lt_irrefl 0), if_neg (fun h => lt_irrefl (0 : ℝ) h.2),
    if_neg (fun h => lt_irrefl (0 : ℝ) h.2), if_pos rfl]

/-- A fire forces at least `interval` of separation from the stored time. -/
lemma fire_sep (interval last now : Nat) (hpos : 0 < interval)
    (h : interval ≤ (now - last) % 4294967296) : last + interval ≤ now := by
  have h2 : interval ≤ now - last := le_trans h (Nat.mod_le _ _)
  omega

/-- Consecutive scheduler fires are at least `interval` apart, also counting
the separation from the initial `lastSampleTime`. -/
lemma schedFires_chain (interval : Nat) (hpos : 0 < interval) :
    ∀ (ts : List Nat) (last : Nat),
      List.Chain' (fun a b => a + interval ≤ b) (last :: schedFires interval last ts) := by
  intro ts
  induction ts with
  | nil => intro last; simp [schedFires]
  | cons now ts ih =>
    intro last
    by_cases h : interval ≤ (now - last) % 4294967296
    · have h1 := fire_sep interval last now hpos h
      have h2 := ih now
      simp only [schedFires, if_pos h]
      exact List.Chain'.cons h1 h2
    · simp only [schedFires, if_neg h]
      exact ih last

/-! ## Claims -/

/-- C1: for every strain channel and every `factor > 0`, after
`setScale(factor)` the channel's `read()` returns
`(rawCount − zeroOffset) / factor`, i.e. the unscaled (scale-1) reading
divided by `factor`. -/
theorem c1_setScale_read (c : Channel) (factor raw : ℚ) (h : 0 < factor) :
    readChannel (setScale c factor) raw = (raw - c.offset) / factor ∧
    readChannel (setScale c factor) raw = readChannel (setScale c 1) raw / factor := by
  constructor
  · simp [readChannel, setScale]
  · simp [readChannel, setScale]

/-- Witness for C1 at a concrete channel, factor 2 and raw count 10. -/
theorem c1_witness : 0 < (2 : ℚ) ∧
    (readChannel (setScale ⟨0, 1⟩ 2) 10 = (10 - 0) / 2 ∧
      readChannel (setScale ⟨0, 1⟩ 2) 10 = readChannel (setScale ⟨0, 1⟩ 1) 10 / 2) :=
  ⟨by norm_num, c1_setScale_read ⟨0, 1⟩ 2 10 (by norm_num)⟩

/-- C8: `tare()` followed by `read()` with the raw signal unchanged yields
exactly 0 — at the driver level and through the dispatcher's TARE command
for every channel. -/
theorem c8_tare_read_zero :
    (∀ (c : Channel) (raw : ℚ), readChannel (tareChannel c raw) raw = 0) ∧
    (∀ (st : Fin 8 → Channel) (raws : Fin 8 → ℚ) (i : Fin 8),
      readChannel ((processCommand st raws ("TARE".toList)).1 i) (raws i) = 0) := by
  constructor
  · intro c raw
    simp [readChannel, tareChannel]
  · intro st raws i
    have h : processCommand st raws ("TARE".toList) =
        (fun i => tareChannel (st i) (raws i), [StrainFrame.tareComplete]) := rfl
    rw [h]
    simp [readChannel, tareChannel]

/-- C9: on a fired strain tick, a channel whose readiness check fails
contributes the sentinel 0, every ready channel is read normally, and the
record (with its fire timestamp) is always produced. -/
theorem c9_not_ready_sentinel (t : Nat) (st : Fin 8 → Channel) (ready : Fin 8 → Bool)
    (raw : Fin 8 → ℚ) (i : Fin 8) :
    (ready i = false → (strainFireRecord t st ready raw).readings i = 0) ∧
    (ready i = true →
      (strainFireRecord t st ready raw).readings i = readChannel (st i) (raw i)) ∧
    (strainFireRecord t st ready raw).t = t := by
  refine ⟨fun h => ?_, fun h => ?_, rfl⟩
  · simp [strainFireRecord, strainSample, h]
  · simp [strainFireRecord, strainSample, h]

/-- Witness for C9: with channel 0 not ready and channel 1 ready, the
record carries 0 for channel 0 and the normal reading for channel 1. -/
theorem c9_witness :
    ((fun i : Fin 8 => decide (0 < (i : Nat))) 0 = false ∧
      (strainFireRecord 5 initStrain (fun i : Fin 8 => decide (0 < (i : Nat)))
        (fun _ => 7)).readings 0 = 0) ∧
    ((fun i : Fin 8 => decide (0 < (i : Nat))) 1 = true ∧
      (strainFireRecord 5 initStrain (fun i : Fin 8 => decide (0 < (i : Nat)))
        (fun _ => 7)).readings 1 = readChannel (initStrain 1) 7) :=
  ⟨⟨by decide,
    (c9_not_ready_sentinel 5 initStrain (fun i : Fin 8 => decide (0 < (i : Nat)))
      (fun _ => 7) 0).1 (by decide)⟩,
   ⟨by decide,
    (c9_not_ready_sentinel 5 initStrain (fun i : Fin 8 => decide (0 < (i : Nat)))
      (fun _ => 7) 1).2.1 (by decide)⟩⟩

/-- C5 counterexample, two malformed lines the dispatcher does not drop:
`CALIBRATE,3,abc` has an unparsable factor (`toFloat` returns 0.0), yet a
`CALIBRATION_SET,3,0` frame is emitted and channel 3's scale overwritten;
and `CALIBRATE,65537,2.5` has a channel index outside `[1, 8]`, yet the
16-bit truncation of `int channel = ... toInt()` turns 65537 into 1, so the
line is applied to channel 1 and acked `CALIBRATION_SET,1,2.5`. -/
theorem c5_counterexample :
    ((processCommand initStrain (fun _ => 0) ("CALIBRATE,3,abc".toList)).2 =
        [StrainFrame.calibrationSet 3 0] ∧
      ((processCommand initStrain (fun _ => 0) ("CALIBRATE,3,abc".toList)).1 2).scale ≠
        (initStrain 2).scale) ∧
    ((processCommand initStrain (fun _ => 0) ("CALIBRATE,65537,2.5".toList)).2 =
        [StrainFrame.calibrationSet 1 (5 / 2)] ∧
      ((processCommand initStrain (fun _ => 0) ("CALIBRATE,65537,2.5".toList)).1 0).scale ≠
        (initStrain 0).scale) := by
  refine ⟨⟨?_, ?_⟩, ?_, ?_⟩
  · simp +decide [processCommand, parsedChannel, parsedFactor, s16, atolModel, atofModel,
      natOfDigits, indexOfFrom, indexOfFromAux, startsWithList, setScale, initStrain]
  · simp +decide [processCommand, parsedChannel, parsedFactor, s16, atolModel, atofModel,
      natOfDigits, indexOfFrom, indexOfFromAux, startsWithList, setScale, initStrain]
  · simp +decide [processCommand, parsedChannel, parsedFactor, s16, atolModel, atofModel,
      natOfDigits, indexOfFrom, indexOfFromAux, startsWithList, setScale, initStrain]
    norm_num
  · simp +decide [processCommand, parsedChannel, parsedFactor, s16, atolModel, atofModel,
      natOfDigits, indexOfFrom, indexOfFromAux, startsWithList, setScale, initStrain]
    norm_num

/-- C5 (amended): a line matching no command prefix, a CALIBRATE line with
no comma at or after index 10, and a CALIBRATE line whose parsed channel —
after the firmware's truncation of `toInt()`'s 32-bit `long` into the
16-bit AVR `int` — is outside `[1, 8]` are all silently dropped: no frame,
no state change.  (A CALIBRATE line whose truncated channel lands in
`[1, 8]` is always applied and acked, with `toFloat`'s value 0.0 when the
factor is unparsable; see the counterexample for both escapes.) -/
theorem c5_silent_drop (st : Fin 8 → Channel) (raws : Fin 8 → ℚ) (cmd : List Char) :
    (startsWithList ("TARE".toList) cmd = false →
      startsWithList ("CALIBRATE".toList) cmd = false →
      (cmd == "IDENTITY".toList) = false →
      processCommand st raws cmd = (st, [])) ∧
    (startsWithList ("TARE".toList) cmd = false →
      startsWithList ("CALIBRATE".toList) cmd = true →
      ¬ 0 < indexOfFrom ',' cmd 10 →
      processCommand st raws cmd = (st, [])) ∧
    (startsWithList ("TARE".toList) cmd = false →
      startsWithList ("CALIBRATE".toList) cmd = true →
      0 < indexOfFrom ',' cmd 10 →
      ¬ (1 ≤ parsedChannel cmd ∧ parsedChannel cmd ≤ 8) →
      processCommand st raws cmd = (st, [])) := by
  refine ⟨fun h1 h2 h3 => ?_, fun h1 h2 h3 => ?_, fun h1 h2 h3 h4 => ?_⟩
  · simp at h1 h2 h3
    simp [processCommand, h1, h2, h3]
  · simp at h1 h2
    simp [processCommand, h1, h2, h3]
  · simp at h1 h2
    simp [processCommand, h1, h2, h3, h4]

/-- Witness for C5 (amended) on the unrecognized line `HELLO`. -/
theorem c5_witness :
    (startsWithList ("TARE".toList) ("HELLO".toList) = false ∧
      startsWithList ("CALIBRATE".toList) ("HELLO".toList) = false ∧
      (("HELLO".toList : List Char) == "IDENTITY".toList) = false) ∧
    processCommand initStrain (fun _ => 0) ("HELLO".toList) = (initStrain, []) :=
  ⟨⟨by decide, by decide, by decide⟩,
    (c5_silent_drop initStrain (fun _ => 0) ("HELLO".toList)).1
      (by decide) (by decide) (by decide)⟩

/-- C6 counterexample: `CALIBRATE,1,-2` is parsed and applied, leaving
channel 1 with the stored scale −2 — the strict-positivity invariant fails
in a state reachable by one dispatcher step. -/
theorem c6_counterexample :
    ((processCommand initStrain (fun _ => 0) ("CALIBRATE,1,-2".toList)).1 0).scale = -2 ∧
    ¬ 0 < ((processCommand initStrain (fun _ => 0) ("CALIBRATE,1,-2".toList)).1 0).scale := by
  constructor
  · simp +decide [processCommand, parsedChannel, parsedFactor, s16, atolModel, atofModel,
      natOfDigits, indexOfFrom, indexOfFromAux, startsWithList, setScale, initStrain]
  · simp +decide [processCommand, parsedChannel, parsedFactor, s16, atolModel, atofModel,
      natOfDigits, indexOfFrom, indexOfFromAux, startsWithList, setScale, initStrain]

/-- C6 (amended): every channel's scale defaults to 1.0 at boot, but the
dispatcher enforces no positivity check: after any command, each channel's
scale is either still positive (when it was before) or is exactly the parsed
CALIBRATE factor, whatever its sign. -/
theorem c6_scale_default_and_store :
    (∀ i : Fin 8, (initStrain i).scale = 1) ∧
    (∀ (st : Fin 8 → Channel) (raws : Fin 8 → ℚ) (cmd : List Char) (i : Fin 8),
      0 < (st i).scale →
      0 < ((processCommand st raws cmd).1 i).scale ∨
        ((processCommand st raws cmd).1 i).scale = parsedFactor cmd) := by
  constructor
  · intro i; rfl
  · intro st raws cmd i h
    simp only [processCommand]
    by_cases h1 : startsWithList ("TARE".toList) cmd = true
    · rw [if_pos h1]
      exact Or.inl h
    · rw [if_neg h1]
      by_cases h2 : startsWithList ("CALIBRATE".toList) cmd = true
      · rw [if_pos h2]
        by_cases h3 : 0 < indexOfFrom ',' cmd 10
        · rw [if_pos h3]
          by_cases h4 : 1 ≤ parsedChannel cmd ∧ parsedChannel cmd ≤ 8
          · rw [if_pos h4]
            by_cases h5 : (i : Nat) = (parsedChannel cmd - 1).toNat
            · refine Or.inr ?_
              show (if (i : Nat) = (parsedChannel cmd - 1).toNat then
                  setScale (st i) (parsedFactor cmd) else st i).scale = parsedFactor cmd
              rw [if_pos h5]
              rfl
            · refine Or.inl ?_
              show 0 < (if (i : Nat) = (parsedChannel cmd - 1).toNat then
                  setScale (st i) (parsedFactor cmd) else st i).scale
              rw [if_neg h5]
              exact h
          · rw [if_neg h4]
            exact Or.inl h
        · rw [if_neg h3]
          exact Or.inl h
      · rw [if_neg h2]
        by_cases h6 : (cmd == "IDENTITY".toList) = true
        · rw [if_pos h6]
          exact Or.inl h
        · rw [if_neg h6]
          exact Or.inl h

/-- Witness for C6 (amended) at the boot state and `CALIBRATE,1,2.5`. -/
theorem c6_witness :
    0 < (initStrain 0).scale ∧
    (0 < ((processCommand initStrain (fun _ => 0) ("CALIBRATE,1,2.5".toList)).1 0).scale ∨
      ((processCommand initStrain (fun _ => 0) ("CALIBRATE,1,2.5".toList)).1 0).scale =
        parsedFactor ("CALIBRATE,1,2.5".toList)) :=
  ⟨by norm_num [initStrain],
    c6_scale_default_and_store.2 initStrain (fun _ => 0) ("CALIBRATE,1,2.5".toList) 0
      (by norm_num [initStrain])⟩

/-- C3: the sampling action fires exactly when
`now - lastSampleTime ≥ sampleInterval` (100 ms strain, 10 ms motion, with
the firmware's 32-bit unsigned subtraction, which is plain subtraction while
the difference has not wrapped); on fire `lastSampleTime` is set to `now`
(else kept) and exactly one record is emitted; hence no two records of one
node fire closer together than `sampleInterval`. -/
theorem c3_scheduler :
    SAMPLE_INTERVAL_STRAIN = 100 ∧ SAMPLE_INTERVAL_MOTION = 10 ∧
    ∀ interval : Nat, 0 < interval →
      (∀ last now, (schedTick interval last now).2 = true ↔
        interval ≤ (now - last) % 4294967296) ∧
      (∀ last now, (schedTick interval last now).2 = true →
        (schedTick interval last now).1 = now) ∧
      (∀ last now, (schedTick interval last now).2 = false →
        (schedTick interval last now).1 = last) ∧
      (∀ last now, now - last < 4294967296 →
        ((schedTick interval last now).2 = true ↔ interval ≤ now - last)) ∧
      (∀ last now ts, interval ≤ (now - last) % 4294967296 →
        schedFires interval last (now :: ts) = now :: schedFires interval now ts) ∧
      (∀ last ts, List.Chain' (fun a b => a + interval ≤ b)
        (last :: schedFires interval last ts)) := by
  refine ⟨rfl, rfl, fun interval hpos => ⟨?_, ?_, ?_, ?_, ?_, ?_⟩⟩
  · intro last now
    unfold schedTick
    by_cases h : interval ≤ (now - last) % 4294967296
    · simp [h]
    · simp [h]
  · intro last now hf
    unfold schedTick at hf ⊢
    by_cases h : interval ≤ (now - last) % 4294967296
    · simp [h]
    · simp [h] at hf
  · intro last now hf
    unfold schedTick at hf ⊢
    by_cases h : interval ≤ (now - last) % 4294967296
    · simp [h] at hf
    · simp [h]
  · intro last now hlt
    unfold schedTick
    rw [Nat.mod_eq_of_lt hlt]
    by_cases h : interval ≤ now - last
    · simp [h]
    · simp [h]
  · intro last now ts hf
    simp only [schedFires, if_pos hf]
  · intro last ts
    exact schedFires_chain interval hpos ts last

/-- Witness for C3 at the strain interval (a run with tick times 100, 150,
205: fires at 100 and 205, which are ≥ 100 apart) and the motion interval. -/
theorem c3_witness :
    (0 < 100 ∧ List.Chain' (fun a b => a + 100 ≤ b) (0 :: schedFires 100 0 [100, 150, 205])) ∧
    (0 < 10 ∧ ((schedTick 10 0 10).2 = true ↔ 10 ≤ (10 - 0) % 4294967296)) :=
  ⟨⟨by norm_num, (c3_scheduler.2.2 100 (by norm_num)).2.2.2.2.2 0 [100, 150, 205]⟩,
    ⟨by norm_num, (c3_scheduler.2.2 10 (by norm_num)).1 0 10⟩⟩

/-- C7: after every fired motion cycle, the synthesized third module
satisfies `pitch₃ = pitch₂ + offset`, `roll₃ = roll₂`, `yaw₃ = yaw₂`, where
module 2 is the real second module's freshly fused state and the offset
counter grows by 0.01 per cycle, resetting to 0.0 once it exceeds 30.0. -/
theorem c7_synth_module (st : MotionState) (raw : Fin 2 → Raw6) :
    ((motionFireStep st raw).m 2).pitch =
      ((motionFireStep st raw).m 1).pitch + ((motionFireStep st raw).offset : ℝ) ∧
    ((motionFireStep st raw).m 2).roll = ((motionFireStep st raw).m 1).roll ∧
    ((motionFireStep st raw).m 2).yaw = ((motionFireStep st raw).m 1).yaw ∧
    (motionFireStep st raw).m 1 = motionModuleStep (st.m 1) (raw 1) ∧
    (motionFireStep st raw).offset =
      (if 30 < st.offset + 1 / 100 then 0 else st.offset + 1 / 100) := by
  refine ⟨?_, ?_, ?_, ?_, ?_⟩ <;>
    simp +decide [motionFireStep, offsetStep]

/-- C2 counterexample: the loop has no failure branch — `getMotion6` is
called unconditionally and the filter is applied to whatever six values it
produced.  On a failed bus transaction the library's buffer yields zeros (a
never-read module) or stale values; with previous pitch 10 and delivered
zeros, the emitted pitch is `0.98 · 10 = 9.8`, not the unchanged 10 the
claim requires. -/
theorem c2_counterexample :
    (motionModuleStep ⟨10, 0, 0⟩ ⟨0, 0, 0, 0, 0, 0⟩).pitch ≠ 10 := by
  have hz : s16 (s16 ((0 : Int) * 0) + s16 ((0 : Int) * 0)) = 0 := by decide
  simp only [motionModuleStep, hz]
  norm_num [alpha, atan2_zero_zero, Real.sqrt_zero]

/-- C2 (amended): the fusion step runs unconditionally every cycle; there is
no path that re-emits the previous estimate.  If a failed read delivers
all-zero raw values, pitch and roll decay by the factor α = 0.98 and yaw is
unchanged — the previous orientation is not held. -/
theorem c2_failed_read_filter (p r y : ℝ) :
    motionModuleStep ⟨p, r, y⟩ ⟨0, 0, 0, 0, 0, 0⟩ = ⟨0.98 * p, 0.98 * r, y⟩ := by
  have hz : s16 (s16 ((0 : Int) * 0) + s16 ((0 : Int) * 0)) = 0 := by decide
  have hz2 : s16 (-(0 : Int)) = 0 := by decide
  simp only [motionModuleStep, hz, hz2, Orientation.mk.injEq]
  norm_num [alpha, atan2_zero_zero, Real.sqrt_zero]

/-- C4: at the failing input `ax = 256, ay = 100, az = 0`, zero gyro rates
and zero previous state, the code's 16-bit `int` computation of
`ax * ax + az * az` wraps `65536` to `0`, so `sqrt` sees 0 and the emitted
pitch is exactly `0.02 · 90 = 1.8`; the specified real-valued formula gives
`0.02 · atan2(100, 256) · 180/π < 1.8`.  The code diverges from its
documented algorithm. -/
theorem c4_overflow_divergence :
    (motionModuleStep ⟨0, 0, 0⟩ ⟨256, 100, 0, 0, 0, 0⟩).pitch = 1.8 ∧
    specPitchFormula 0 256 100 0 0 ≠ 1.8 := by
  constructor
  · have hz : s16 (s16 ((256 : Int) * 256) + s16 ((0 : Int) * 0)) = 0 := by decide
    have h2 : atan2 ((100 : Int) : ℝ) (Real.sqrt (((0 : Int) : ℝ))) = Real.pi / 2 := by
      rw [Int.cast_zero, Real.sqrt_zero]
      exact atan2_pos_zero _ (by norm_num)
    simp only [motionModuleStep, hz, h2]
    have hpi := Real.pi_ne_zero
    field_simp [alpha]
    ring
  · intro heq
    unfold specPitchFormula at heq
    have hs : Real.sqrt (((256 : Int) : ℝ) ^ 2 + ((0 : Int) : ℝ) ^ 2) = 256 := by
      rw [show (((256 : Int) : ℝ) ^ 2 + ((0 : Int) : ℝ) ^ 2) = 256 ^ 2 by norm_num]
      exact Real.sqrt_sq (by norm_num)
    rw [hs, atan2_of_pos _ _ (by norm_num)] at heq
    have harc : Real.arctan (((100 : Int) : ℝ) / 256) < Real.pi / 2 :=
      Real.arctan_lt_pi_div_two _
    have hpi : (0 : ℝ) < Real.pi := Real.pi_pos
    rw [show (((100 : Int) : ℝ) : ℝ) = 100 by norm_num] at heq harc
    field_simp at heq
    nlinarith [harc, hpi]

/-- Init/error lines are not `MOTION` records, whichever way
`testConnection()` went. -/
lemma isMotionRecord_initMsg (b : Bool) (n : Nat) :
    isMotionRecord (initMsg b n) = false := by
  cases b <;> rfl

/-- C10: on every boot the blocking calibration runs once inside `setup()`:
the trace starts with the `MOTION_ARDUINO_READY` banner (index 0), has
`CALIBRATING_SENSORS,START` at index 3 and `CALIBRATING_SENSORS,COMPLETE`
at index 4, and every `MOTION` record sits strictly after index 4 — the
first record never precedes the calibration-complete frame. -/
theorem c10_boot_order (conn : Fin 2 → Bool) (st : MotionState)
    (fires : List (Nat × (Fin 2 → Raw6))) :
    (bootTrace conn st fires).get? 0 = some MotionMsg.ready ∧
    (bootTrace conn st fires).get? 3 = some MotionMsg.calibStart ∧
    (bootTrace conn st fires).get? 4 = some MotionMsg.calibComplete ∧
    ∀ (k : Nat) (msg : MotionMsg), (bootTrace conn st fires).get? k = some msg →
      isMotionRecord msg = true → 4 < k := by
  refine ⟨rfl, rfl, rfl, ?_⟩
  intro k msg hk hrec
  by_contra hlt
  push_neg at hlt
  interval_cases k
  · have hred : (bootTrace conn st fires).get? 0 = some MotionMsg.ready := rfl
    rw [hred] at hk
    injection hk with h1
    subst h1
    exact Bool.noConfusion hrec
  · have hred : (bootTrace conn st fires).get? 1 = some (initMsg (conn 0) 1) := rfl
    rw [hred] at hk
    injection hk with h1
    subst h1
    rw [isMotionRecord_initMsg] at hrec
    exact Bool.noConfusion hrec
  · have hred : (bootTrace conn st fires).get? 2 = some (initMsg (conn 1) 2) := rfl
    rw [hred] at hk
    injection hk with h1
    subst h1
    rw [isMotionRecord_initMsg] at hrec
    exact Bool.noConfusion hrec
  · have hred : (bootTrace conn st fires).get? 3 = some MotionMsg.calibStart := rfl
    rw [hred] at hk
    injection hk with h1
    subst h1
    exact Bool.noConfusion hrec
  · have hred : (bootTrace conn st fires).get? 4 = some MotionMsg.calibComplete := rfl
    rw [hred] at hk
    injection hk with h1
    subst h1
    exact Bool.noConfusion hrec

/-- Witness for C10: one fired cycle after boot; its `MOTION` record lands
at index 5, strictly after the calibration-complete frame at index 4. -/
theorem c10_witness :
    (bootTrace (fun _ => true) ⟨fun _ => ⟨0, 0, 0⟩, 0⟩
        [(10, fun _ => ⟨0, 0, 0, 0, 0, 0⟩)]).get? 5 =
      some (MotionMsg.record 10
        (motionFireStep ⟨fun _ => ⟨0, 0, 0⟩, 0⟩ (fun _ => ⟨0, 0, 0, 0, 0, 0⟩)).m) ∧
    4 < 5 :=
  ⟨rfl,
    (c10_boot_order (fun _ => true) ⟨fun _ => ⟨0, 0, 0⟩, 0⟩
        [(10, fun _ => ⟨0, 0, 0, 0, 0, 0⟩)]).2.2.2 5
      (MotionMsg.record 10
        (motionFireStep ⟨fun _ => ⟨0, 0, 0⟩, 0⟩ (fun _ => ⟨0, 0, 0, 0, 0, 0⟩)).m)
      rfl rfl⟩

end QuickDeck
